import Mathlib

/-!
Shallow embedding of the spoticord credential store (spoticord_database/src/lib.rs):
the retry wrapper for transient prepared-statement errors, the account table
operations used by get_access_token, and the link-request upsert of create_request.
Timestamps are integers counting seconds; durations: 1 minute = 60, 1 hour = 3600.
Each database unit of work may be given an injected fault per invocation index,
so that the number of executions and the retry behaviour are observable.
-/

namespace Spoticord

/-- Kind of a diesel database error, as matched in lib.rs (DatabaseErrorKind). -/
inductive DieselErrorKind
  | Unknown
  | UniqueViolation
deriving DecidableEq

/-- The diesel result errors appearing in lib.rs: a backend database error with
a kind and a free-text message, row-not-found, and rollback. -/
inductive DieselError
  | DatabaseError (kind : DieselErrorKind) (message : String)
  | NotFound
  | RollbackTransaction
deriving DecidableEq

/-- Modelled from the spec: the error taxonomy of section 7 (error.rs is not in
src/); only the variants used by lib.rs are included: wrapped diesel errors,
NotFound, RefreshTokenFailure, and pool acquisition failure. -/
inductive DatabaseError
  | Diesel (e : DieselError)
  | NotFound
  | RefreshTokenFailure
  | Pool
deriving DecidableEq

/-- Does the pattern match the front of the list (character-wise equality)? -/
def headAgrees : List Char → List Char → Bool
  | [], _ => true
  | _ :: _, [] => false
  | a :: as, b :: bs => a == b && headAgrees as bs

/-- Does the pattern occur as a contiguous segment of the list? -/
def hasSegment (pat : List Char) : List Char → Bool
  | [] => pat.isEmpty
  | b :: bs => headAgrees pat (b :: bs) || hasSegment pat bs

/-- String containment: pat occurs somewhere in s (Rust str::contains). -/
def strContains (s pat : String) : Bool :=
  hasSegment pat.toList s.toList

/-- The transient error signature matched by the retry helper (lib.rs line 36). -/
def preparedStatementSignature : String :=
  "unnamed prepared statement does not exist"

/-- The guard of the match in retry_on_prepared_statement_error (lib.rs 31-36):
a diesel DatabaseError of kind Unknown whose message contains the signature. -/
def isTransientPreparedStatementError : DatabaseError → Bool
  | DatabaseError.Diesel (DieselError.DatabaseError DieselErrorKind.Unknown info) =>
      strContains info preparedStatementSignature
  | _ => false

/-- Embedding of retry_on_prepared_statement_error (lib.rs 20-45). The unit of
work is indexed by invocation number; the wrapper runs invocation 0, and only
when that fails with the transient signature runs invocation 1 and returns its
outcome. The second component counts how many times the unit was executed. -/
def retry_on_prepared_statement_error {R : Type} (op : Nat → Except DatabaseError R) :
    Except DatabaseError R × Nat :=
  match op 0 with
  | Except.error e =>
      if isTransientPreparedStatementError e then (op 1, 2)
      else (Except.error e, 1)
  | Except.ok r => (Except.ok r, 1)

/-- Modelled from the spec: the linked-account row (section 3 and the persisted
layout of section 6; models.rs/schema.rs are not in src/). -/
structure Account where
  user_id : String
  access_token : String
  refresh_token : String
  session_token : Option String
  expires : Int
deriving DecidableEq

/-- Modelled from the spec: Account::expired_offset (models.rs is not in src/);
section 4.5 step 2: is_expiring = expires <= now + offset. -/
def Account.expired_offset (a : Account) (offset now : Int) : Bool :=
  a.expires ≤ now + offset

/-- The token payload returned by a successful external exchange
(rspotify::Token as used by lib.rs 299-306). -/
structure ExchangeToken where
  access_token : String
  refresh_token : Option String
  expires_at : Option Int
deriving DecidableEq

/-- Result of the whole get_access_token call: a returned token string, a
returned error, or a fatal invariant violation (the expect on expires_at). -/
inductive Outcome
  | ok (tokenValue : String)
  | err (e : DatabaseError)
  | fatal (msg : String)
deriving DecidableEq

/-- SELECT ... WHERE user_id = uid LIMIT 1 over the account table. -/
def findAccount (tbl : List Account) (uid : String) : Option Account :=
  tbl.find? (fun a => a.user_id == uid)

/-- One execution of the account load (lib.rs 269-282): an injected fault, if
any, is returned; otherwise .first gives the row or diesel NotFound. -/
def firstAccount (fault : Option DatabaseError) (tbl : List Account) (uid : String) :
    Except DatabaseError Account :=
  match fault with
  | some e => Except.error e
  | none =>
      match findAccount tbl uid with
      | some a => Except.ok a
      | none => Except.error DatabaseError.NotFound

/-- DELETE FROM account WHERE user_id = uid. -/
def removeAccount (tbl : List Account) (uid : String) : List Account :=
  tbl.filter (fun a => !(a.user_id == uid))

/-- Embedding of Database::delete_account (lib.rs 179-192): the delete unit of
work, run through the retry wrapper; returns the affected row count and the
number of executions. -/
def delete_account (f : Nat → Option DatabaseError) (tbl : List Account) (uid : String) :
    Except DatabaseError Nat × Nat :=
  retry_on_prepared_statement_error (fun i =>
    match f i with
    | some e => Except.error e
    | none => Except.ok (tbl.length - (removeAccount tbl uid).length))

/-- delete_account together with the table it leaves behind: the rows are gone
exactly when the delete executed without a fault. -/
def delete_account_state (f : Nat → Option DatabaseError) (tbl : List Account) (uid : String) :
    Except DatabaseError Nat × List Account × Nat :=
  match delete_account f tbl uid with
  | (Except.ok k, n) => (Except.ok k, removeAccount tbl uid, n)
  | (Except.error e, n) => (Except.error e, tbl, n)

/-- UPDATE account SET access_token, refresh_token, expires WHERE user_id = uid
(lib.rs 310-318), applied to every matching row. -/
def applyUpdate (tbl : List Account) (uid atok rtok : String) (exp : Int) : List Account :=
  tbl.map (fun a =>
    if a.user_id == uid then
      { a with access_token := atok, refresh_token := rtok, expires := exp }
    else a)

/-- One execution of the credential update with RETURNING (lib.rs 308-322):
fault, if injected, is returned; otherwise the table is updated and the row
read back; zero matched rows surface as diesel NotFound (get_result). -/
def updateReturning (fault : Option DatabaseError) (tbl : List Account)
    (uid atok rtok : String) (exp : Int) :
    Except DatabaseError (Account × List Account) :=
  match fault with
  | some e => Except.error e
  | none =>
      let tbl2 := applyUpdate tbl uid atok rtok exp
      match findAccount tbl2 uid with
      | some a => Except.ok (a, tbl2)
      | none => Except.error DatabaseError.NotFound

/-- Injected faults for the three database units of work reachable from
get_access_token, each indexed by invocation number. -/
structure Faults where
  load : Nat → Option DatabaseError
  update : Nat → Option DatabaseError
  del : Nat → Option DatabaseError

/-- The observable result of get_access_token: the outcome, the final account
table, and how often each database unit of work and the external exchange ran. -/
structure GATResult where
  outcome : Outcome
  accounts : List Account
  loadCalls : Nat
  updateCalls : Nat
  deleteCalls : Nat
  exchangeCalls : Nat
deriving DecidableEq

/-- Embedding of Database::get_access_token (lib.rs 264-326). The account row
is loaded by a single spawn_blocking execution (no retry wrapper); if it is
expiring (1-minute offset) the external exchange result is consulted: on
failure or empty result the account is deleted best-effort (through the retry
wrapper, outcome swallowed) and RefreshTokenFailure returned; on success a
missing expires_at is a fatal expect; otherwise a single update execution
persists access_token, refresh_token (empty string when the provider sent
none) and expires, and the access_token read back by RETURNING is returned. -/
def get_access_token (f : Faults) (exchange : Option ExchangeToken) (now : Int)
    (tbl : List Account) (uid : String) : GATResult :=
  match firstAccount (f.load 0) tbl uid with
  | Except.error e => ⟨Outcome.err e, tbl, 1, 0, 0, 0⟩
  | Except.ok result =>
      if result.expired_offset 60 now then
        match exchange with
        | none =>
            ⟨Outcome.err DatabaseError.RefreshTokenFailure,
              (delete_account_state f.del tbl uid).2.1, 1, 0,
              (delete_account_state f.del tbl uid).2.2, 1⟩
        | some token =>
            match token.expires_at with
            | none => ⟨Outcome.fatal "token expires_at is none, we broke time", tbl, 1, 0, 0, 1⟩
            | some expiresVal =>
                match updateReturning (f.update 0) tbl uid token.access_token
                    ((token.refresh_token).getD "") expiresVal with
                | Except.error e => ⟨Outcome.err e, tbl, 1, 1, 0, 1⟩
                | Except.ok (updated, tbl2) =>
                    ⟨Outcome.ok updated.access_token, tbl2, 1, 1, 0, 1⟩
      else ⟨Outcome.ok result.access_token, tbl, 1, 0, 0, 0⟩

/-- The link-request row (section 6 persisted layout; lib.rs 247-253 columns). -/
structure LinkRequest where
  user_id : String
  token : String
  expires : Int
deriving DecidableEq

/-- The alphanumeric alphabet sampled by rand::distributions::Alphanumeric. -/
def alphanumericChars : List Char :=
  "ABCDEFGHIJKLMNOPQRSTUVWXYZabcdefghijklmnopqrstuvwxyz0123456789".toList

/-- One sample of the Alphanumeric distribution, given the sampled index. -/
def sampleAlphanumeric (k : Fin 62) : Char :=
  alphanumericChars.getD k.val 'A'

/-- The 64-character token of create_request (lib.rs 241-245), given the
stream of sampled indices. -/
def genToken (rng : Nat → Fin 62) : String :=
  String.mk ((List.range 64).map (fun i => sampleAlphanumeric (rng i)))

/-- INSERT ... ON CONFLICT (user_id) DO UPDATE SET token, expires
(lib.rs 247-251): update every row with this user_id, or append a new row. -/
def upsertLinkRequest (tbl : List LinkRequest) (uid tok : String) (exp : Int) :
    List LinkRequest :=
  if tbl.any (fun r => r.user_id == uid) then
    tbl.map (fun r =>
      if r.user_id == uid then { r with token := tok, expires := exp } else r)
  else
    tbl ++ [⟨uid, tok, exp⟩]

/-- Embedding of Database::create_request (lib.rs 234-258): a single
spawn_blocking execution (never the retry wrapper); an injected fault is
surfaced directly; otherwise a fresh token and a one-hour expiry are upserted
keyed on user_id and the row read back by RETURNING. The last component counts
executions of the unit of work, which is always 1. -/
def create_request (fault : Option DatabaseError) (rng : Nat → Fin 62) (now : Int)
    (tbl : List LinkRequest) (uid : String) :
    Except DatabaseError LinkRequest × List LinkRequest × Nat :=
  match fault with
  | some e => (Except.error e, tbl, 1)
  | none =>
      let tok := genToken rng
      let exp := now + 3600
      let tbl2 := upsertLinkRequest tbl uid tok exp
      match tbl2.find? (fun r => r.user_id == uid) with
      | some req => (Except.ok req, tbl2, 1)
      | none => (Except.error DatabaseError.NotFound, tbl2, 1)

/-- Rows of the link-request table belonging to one user. -/
def countForUser (tbl : List LinkRequest) (uid : String) : Nat :=
  (tbl.filter (fun r => r.user_id == uid)).length

/-! Helper lemmas on the link-request table. -/

/-- Every sample of the Alphanumeric distribution lies in the alphabet. -/
theorem sampleAlphanumeric_mem : ∀ k : Fin 62, sampleAlphanumeric k ∈ alphanumericChars := by
  decide

/-- A generated token is 64 characters long. -/
theorem genToken_length (rng : Nat → Fin 62) : (genToken rng).length = 64 := by
  simp [genToken, String.length]

/-- Every character of a generated token is in the alphanumeric alphabet. -/
theorem genToken_chars (rng : Nat → Fin 62) :
    ∀ c, c ∈ (genToken rng).data → c ∈ alphanumericChars := by
  intro c hc
  simp only [genToken, String.mk, List.mem_map] at hc
  obtain ⟨i, _, rfl⟩ := hc
  exact sampleAlphanumeric_mem (rng i)

/-- A structure update of token and expires does not change the user_id. -/
theorem updated_user_id (r : LinkRequest) (tok : String) (exp : Int) :
    ({ r with token := tok, expires := exp } : LinkRequest).user_id = r.user_id := rfl

/-- Updating token and expires on every row of a user keeps the row count of
that user unchanged. -/
theorem countForUser_update (tbl : List LinkRequest) (uid tok : String) (exp : Int) :
    countForUser (tbl.map (fun r =>
      if r.user_id == uid then { r with token := tok, expires := exp } else r)) uid =
    countForUser tbl uid := by
  unfold countForUser
  rw [← List.countP_eq_length_filter, ← List.countP_eq_length_filter, List.countP_map]
  congr 1
  funext r
  by_cases hb : (r.user_id == uid) = true
  · simp [Function.comp, hb, updated_user_id]
  · simp [Function.comp, hb]

/-- If no row of the table belongs to the user, the user's row count is 0. -/
theorem countForUser_eq_zero (tbl : List LinkRequest) (uid : String)
    (h : tbl.any (fun r => r.user_id == uid) = false) :
    countForUser tbl uid = 0 := by
  unfold countForUser
  rw [List.length_eq_zero, List.filter_eq_nil_iff]
  intro a ha hpa
  have : tbl.any (fun r => r.user_id == uid) = true := List.any_eq_true.mpr ⟨a, ha, hpa⟩
  rw [h] at this
  exact Bool.false_ne_true this

/-- If some row of the table belongs to the user, the count is at least 1. -/
theorem countForUser_pos (tbl : List LinkRequest) (uid : String)
    (h : tbl.any (fun r => r.user_id == uid) = true) :
    1 ≤ countForUser tbl uid := by
  obtain ⟨a, ha, hpa⟩ := List.any_eq_true.mp h
  have hmem : a ∈ tbl.filter (fun r => r.user_id == uid) := List.mem_filter.mpr ⟨ha, hpa⟩
  have := List.length_pos.mpr (List.ne_nil_of_mem hmem)
  simpa [countForUser] using this

/-- After an upsert for a user, that user's row count is the old count, or 1
if the user had no row yet. -/
theorem countForUser_upsert (tbl : List LinkRequest) (uid tok : String) (exp : Int) :
    countForUser (upsertLinkRequest tbl uid tok exp) uid =
      max 1 (countForUser tbl uid) := by
  unfold upsertLinkRequest
  by_cases h : tbl.any (fun r => r.user_id == uid) = true
  · rw [if_pos h, countForUser_update]
    exact (Nat.max_eq_right (countForUser_pos tbl uid h)).symm
  · rw [if_neg h]
    have hz := countForUser_eq_zero tbl uid (by simpa using h)
    unfold countForUser at hz ⊢
    rw [List.filter_append, List.length_append, hz]
    simp [List.filter_cons]

/-- Updating every matching row and searching for the user finds the freshly
written row, provided the user had a row. -/
theorem find_map_update (tbl : List LinkRequest) (uid tok : String) (exp : Int)
    (h : tbl.any (fun r => r.user_id == uid) = true) :
    (tbl.map (fun r =>
      if r.user_id == uid then { r with token := tok, expires := exp } else r)).find?
        (fun r => r.user_id == uid) = some ⟨uid, tok, exp⟩ := by
  induction tbl with
  | nil => simp at h
  | cons r rest ih =>
      by_cases hb : (r.user_id == uid) = true
      · have huid : r.user_id = uid := by simpa using hb
        simp only [List.map_cons, if_pos hb]
        rw [List.find?_cons_of_pos _ (by simpa [updated_user_id] using hb)]
        cases r
        simp_all
      · have hrest : rest.any (fun r => r.user_id == uid) = true := by
          simpa [List.any_cons, hb] using h
        simp only [List.map_cons, if_neg hb]
        rw [List.find?_cons_of_neg _ (by simpa using hb)]
        exact ih hrest

/-- Appending a fresh row for a user with no prior row and searching finds the
fresh row. -/
theorem find_append_new (tbl : List LinkRequest) (uid tok : String) (exp : Int)
    (h : tbl.any (fun r => r.user_id == uid) = false) :
    (tbl ++ [(⟨uid, tok, exp⟩ : LinkRequest)]).find? (fun r => r.user_id == uid) =
      some ⟨uid, tok, exp⟩ := by
  induction tbl with
  | nil => simp
  | cons r rest ih =>
      simp only [List.any_cons, Bool.or_eq_false_iff] at h
      rw [List.cons_append, List.find?_cons_of_neg _ (by simp [h.1])]
      exact ih h.2

/-- The first row found for a user after an upsert of that user is exactly the
freshly written row. -/
theorem find_upsert (tbl : List LinkRequest) (uid tok : String) (exp : Int) :
    (upsertLinkRequest tbl uid tok exp).find? (fun r => r.user_id == uid) =
      some ⟨uid, tok, exp⟩ := by
  unfold upsertLinkRequest
  by_cases h : tbl.any (fun r => r.user_id == uid) = true
  · rw [if_pos h]
    exact find_map_update tbl uid tok exp h
  · rw [if_neg h]
    exact find_append_new tbl uid tok exp (by simpa using h)

/-- A fault-free create_request returns the freshly upserted row and leaves
behind the upserted table, executing its unit of work once. -/
theorem create_request_none_eq (rng : Nat → Fin 62) (now : Int)
    (tbl : List LinkRequest) (uid : String) :
    create_request none rng now tbl uid =
      (Except.ok (⟨uid, genToken rng, now + 3600⟩ : LinkRequest),
       upsertLinkRequest tbl uid (genToken rng) (now + 3600), 1) := by
  simp only [create_request]
  rw [find_upsert]

/-! Helper lemmas on the account table and get_access_token. -/

/-- A structure update of the credential columns does not change user_id. -/
theorem updatedAccount_user_id (a : Account) (atok rtok : String) (exp : Int) :
    ({ a with access_token := atok, refresh_token := rtok, expires := exp } : Account).user_id
      = a.user_id := rfl

/-- Searching a cons whose head satisfies the predicate finds the head. -/
theorem find?_cons_true {α : Type} (p : α → Bool) (a : α) (l : List α)
    (h : p a = true) : List.find? p (a :: l) = some a := by
  simp [List.find?, h]

/-- Searching a cons whose head fails the predicate searches the tail. -/
theorem find?_cons_false {α : Type} (p : α → Bool) (a : α) (l : List α)
    (h : p a = false) : List.find? p (a :: l) = List.find? p l := by
  simp [List.find?, h]

/-- The retry wrapper always executes its unit of work at least once. -/
theorem retry_calls_pos {R : Type} (op : Nat → Except DatabaseError R) :
    1 ≤ (retry_on_prepared_statement_error op).2 := by
  unfold retry_on_prepared_statement_error
  cases hop : op 0 with
  | error e =>
      by_cases ht : isTransientPreparedStatementError e = true
      · simp [ht]
      · simp [ht]
  | ok r => simp

/-- delete_account_state reports the same execution count as delete_account. -/
theorem delete_account_state_calls (f : Nat → Option DatabaseError)
    (tbl : List Account) (uid : String) :
    (delete_account_state f tbl uid).2.2 = (delete_account f tbl uid).2 := by
  unfold delete_account_state
  cases hd : delete_account f tbl uid with
  | mk r n => cases r <;> simp

/-- After deleting a user's rows, no row of that user can be found. -/
theorem findAccount_removeAccount (tbl : List Account) (uid : String) :
    findAccount (removeAccount tbl uid) uid = none := by
  induction tbl with
  | nil => rfl
  | cons a rest ih =>
      by_cases hb : (a.user_id == uid) = true
      · have hstep : removeAccount (a :: rest) uid = removeAccount rest uid := by
          simp [removeAccount, List.filter_cons, hb]
        rw [hstep]
        exact ih
      · have hf : (a.user_id == uid) = false := by simpa using hb
        have hstep : removeAccount (a :: rest) uid = a :: removeAccount rest uid := by
          simp [removeAccount, List.filter_cons, hf]
        rw [hstep]
        unfold findAccount
        rw [find?_cons_false (fun x : Account => x.user_id == uid) _ _ hf]
        exact ih

/-- Finding a user's row after the credential update finds the updated row. -/
theorem findAccount_applyUpdate (tbl : List Account) (uid atok rtok : String) (exp : Int) :
    findAccount (applyUpdate tbl uid atok rtok exp) uid =
      (findAccount tbl uid).map
        (fun a => { a with access_token := atok, refresh_token := rtok, expires := exp }) := by
  induction tbl with
  | nil => rfl
  | cons a rest ih =>
      by_cases hb : (a.user_id == uid) = true
      · simp only [applyUpdate, List.map_cons, findAccount] at ih ⊢
        rw [if_pos hb,
          find?_cons_true (fun x : Account => x.user_id == uid)
            { a with access_token := atok, refresh_token := rtok, expires := exp } _ hb,
          find?_cons_true (fun x : Account => x.user_id == uid) a _ hb]
        rfl
      · have hf : (a.user_id == uid) = false := by simpa using hb
        simp only [applyUpdate, List.map_cons, findAccount] at ih ⊢
        rw [if_neg hb, find?_cons_false (fun x : Account => x.user_id == uid) _ _ hf,
          find?_cons_false (fun x : Account => x.user_id == uid) _ _ hf]
        exact ih

/-- A fault-free credential update with RETURNING yields the updated row of
the user and the updated table, provided the user has a row. -/
theorem updateReturning_none_eq (tbl : List Account) (uid atok rtok : String)
    (exp : Int) (a : Account) (hfind : findAccount tbl uid = some a) :
    updateReturning none tbl uid atok rtok exp =
      Except.ok
        ({ a with access_token := atok, refresh_token := rtok, expires := exp },
         applyUpdate tbl uid atok rtok exp) := by
  simp only [updateReturning, findAccount_applyUpdate, hfind, Option.map_some']

/-- Whenever the update with RETURNING succeeds, the returned row is the row
found for the user in the table the update leaves behind. -/
theorem updateReturning_ok_find (fault : Option DatabaseError) (tbl : List Account)
    (uid atok rtok : String) (exp : Int) (row : Account) (tbl2 : List Account)
    (h : updateReturning fault tbl uid atok rtok exp = Except.ok (row, tbl2)) :
    findAccount tbl2 uid = some row := by
  unfold updateReturning at h
  cases fault with
  | some e => simp at h
  | none =>
      cases hf : findAccount (applyUpdate tbl uid atok rtok exp) uid with
      | none => simp [hf] at h
      | some b =>
          simp [hf] at h
          rw [← h.2, hf, h.1]

/-- If the delete unit of work reports success, the table delete_account_state
leaves behind has the user's rows removed. -/
theorem delete_account_state_ok (f : Nat → Option DatabaseError) (tbl : List Account)
    (uid : String) (k : Nat) (h : (delete_account f tbl uid).1 = Except.ok k) :
    (delete_account_state f tbl uid).2.1 = removeAccount tbl uid := by
  unfold delete_account_state
  cases hd : delete_account f tbl uid with
  | mk r n =>
      rw [hd] at h
      cases r with
      | ok k2 => simp
      | error e => simp at h

/-- Scenario equation: a fault on the account load is returned unchanged and
nothing else runs. -/
theorem gat_load_fault_eq (f : Faults) (exch : Option ExchangeToken) (now : Int)
    (tbl : List Account) (uid : String) (e : DatabaseError) (hl : f.load 0 = some e) :
    get_access_token f exch now tbl uid = ⟨Outcome.err e, tbl, 1, 0, 0, 0⟩ := by
  unfold get_access_token firstAccount
  rw [hl]

/-- Scenario equation: a fresh (not expiring) account is returned unchanged. -/
theorem gat_fresh_eq (f : Faults) (exch : Option ExchangeToken) (now : Int)
    (tbl : List Account) (uid : String) (a : Account) (hl : f.load 0 = none)
    (hfind : findAccount tbl uid = some a)
    (hfresh : Account.expired_offset a 60 now = false) :
    get_access_token f exch now tbl uid = ⟨Outcome.ok a.access_token, tbl, 1, 0, 0, 0⟩ := by
  unfold get_access_token firstAccount
  rw [hl, hfind]
  simp [hfresh]

/-- Scenario equation: an expiring account whose exchange fails or comes back
empty leads to a best-effort delete and RefreshTokenFailure. -/
theorem gat_exchange_fail_eq (f : Faults) (now : Int) (tbl : List Account)
    (uid : String) (a : Account) (hl : f.load 0 = none)
    (hfind : findAccount tbl uid = some a)
    (hexp : Account.expired_offset a 60 now = true) :
    get_access_token f none now tbl uid =
      ⟨Outcome.err DatabaseError.RefreshTokenFailure,
        (delete_account_state f.del tbl uid).2.1, 1, 0,
        (delete_account_state f.del tbl uid).2.2, 1⟩ := by
  unfold get_access_token firstAccount
  rw [hl, hfind]
  simp [hexp]

/-- Scenario equation: an expiring account whose successful exchange lacks
expires_at hits the fatal expect. -/
theorem gat_fatal_eq (f : Faults) (now : Int) (tbl : List Account) (uid : String)
    (a : Account) (tok : ExchangeToken) (hl : f.load 0 = none)
    (hfind : findAccount tbl uid = some a)
    (hexp : Account.expired_offset a 60 now = true)
    (hat : tok.expires_at = none) :
    get_access_token f (some tok) now tbl uid =
      ⟨Outcome.fatal "token expires_at is none, we broke time", tbl, 1, 0, 0, 1⟩ := by
  unfold get_access_token firstAccount
  rw [hl, hfind]
  simp [hexp, hat]

/-- Scenario equation: a fault on the credential update is returned unchanged
after a single update execution. -/
theorem gat_update_fault_eq (f : Faults) (now : Int) (tbl : List Account)
    (uid : String) (a : Account) (tok : ExchangeToken) (v : Int)
    (e : DatabaseError) (hl : f.load 0 = none)
    (hfind : findAccount tbl uid = some a)
    (hexp : Account.expired_offset a 60 now = true)
    (hat : tok.expires_at = some v) (hu : f.update 0 = some e) :
    get_access_token f (some tok) now tbl uid = ⟨Outcome.err e, tbl, 1, 1, 0, 1⟩ := by
  unfold get_access_token firstAccount
  rw [hl, hfind]
  simp [hexp, hat, updateReturning, hu]

/-- Scenario equation: the successful refresh path persists the exchange
result (empty-string refresh_token when the provider sent none) and returns
the new access_token. -/
theorem gat_refresh_eq (f : Faults) (now : Int) (tbl : List Account) (uid : String)
    (a : Account) (tok : ExchangeToken) (v : Int) (hl : f.load 0 = none)
    (hfind : findAccount tbl uid = some a)
    (hexp : Account.expired_offset a 60 now = true)
    (hat : tok.expires_at = some v) (hu : f.update 0 = none) :
    get_access_token f (some tok) now tbl uid =
      ⟨Outcome.ok tok.access_token,
        applyUpdate tbl uid tok.access_token ((tok.refresh_token).getD "") v,
        1, 1, 0, 1⟩ := by
  unfold get_access_token firstAccount
  rw [hl, hfind]
  have hupd := updateReturning_none_eq tbl uid tok.access_token
    ((tok.refresh_token).getD "") v a hfind
  rw [hu] at *
  simp [hexp, hat, hupd]

/-! Concrete values used by witnesses and counterexamples. -/

/-- A concrete error carrying the transient prepared-statement signature. -/
def transientErr : DatabaseError :=
  DatabaseError.Diesel (DieselError.DatabaseError DieselErrorKind.Unknown
    "ERROR: unnamed prepared statement does not exist")

/-- A unit of work failing transiently on its first invocation, then ok. -/
def flakyOp : Nat → Except DatabaseError Nat :=
  fun i => if i == 0 then Except.error transientErr else Except.ok 7

/-- No injected faults on any database unit of work. -/
def noFaults : Faults :=
  ⟨fun _ => none, fun _ => none, fun _ => none⟩

/-- A fault schedule whose account load fails transiently once, then works. -/
def flakyLoadFaults : Faults :=
  ⟨fun i => if i == 0 then some transientErr else none, fun _ => none, fun _ => none⟩

/-- A concrete linked account whose token is expiring at now = 0. -/
def cexAccount : Account :=
  ⟨"u", "atok", "old", none, 0⟩

/-- A concrete successful exchange result that did not rotate refresh_token. -/
def cexExchange : ExchangeToken :=
  ⟨"newtok", none, some 1000⟩

/-- A concrete account whose expiry is far in the future at now = 0. -/
def freshAccount : Account :=
  ⟨"u", "atok", "old", none, 1000⟩

/-! Claim theorems. -/

/-- Claim C3: for every unit of work passed through the retry wrapper, a first
execution that succeeds, or fails without the transient prepared-statement
signature, is executed exactly once and its outcome returned unchanged; a
first execution failing with the transient signature is followed by exactly
one more execution whose outcome (success or failure) is returned. -/
theorem retry_wrapper_spec {R : Type} (op : Nat → Except DatabaseError R) :
    (∀ r, op 0 = Except.ok r →
      retry_on_prepared_statement_error op = (Except.ok r, 1)) ∧
    (∀ e, op 0 = Except.error e → isTransientPreparedStatementError e = false →
      retry_on_prepared_statement_error op = (Except.error e, 1)) ∧
    (∀ e, op 0 = Except.error e → isTransientPreparedStatementError e = true →
      retry_on_prepared_statement_error op = (op 1, 2)) := by
  refine ⟨?_, ?_, ?_⟩
  · intro r h
    simp [retry_on_prepared_statement_error, h]
  · intro e h hsig
    simp [retry_on_prepared_statement_error, h, hsig]
  · intro e h hsig
    simp [retry_on_prepared_statement_error, h, hsig]

/-- Witness for C3: the concrete flaky unit of work is retried and the second
outcome, a success, is returned with two executions recorded. -/
theorem retry_wrapper_spec_witness :
    retry_on_prepared_statement_error flakyOp = (flakyOp 1, 2) :=
  (retry_wrapper_spec flakyOp).2.2 transientErr rfl (by decide)

/-- A stream of sampled alphabet indices, all zero, used by concrete calls. -/
def rngZero : Nat → Fin 62 := fun _ => ⟨0, by decide⟩

/-- Claim C6: starting from a table with at most one link-request row for a
user (the unique-key invariant), two create_request calls for that user leave
exactly one row for the user, and that row carries the second call's freshly
generated token and its one-hour expiry. -/
theorem create_request_twice (rng1 rng2 : Nat → Fin 62) (now1 now2 : Int)
    (tbl : List LinkRequest) (uid : String)
    (hone : countForUser tbl uid ≤ 1) :
    countForUser
      (create_request none rng2 now2 (create_request none rng1 now1 tbl uid).2.1 uid).2.1
      uid = 1 ∧
    (create_request none rng2 now2 (create_request none rng1 now1 tbl uid).2.1 uid).2.1.find?
      (fun r => r.user_id == uid) = some ⟨uid, genToken rng2, now2 + 3600⟩ := by
  rw [create_request_none_eq, create_request_none_eq]
  refine ⟨?_, find_upsert _ _ _ _⟩
  rw [countForUser_upsert, countForUser_upsert]
  omega

/-- Witness for C6: from the empty table, two concrete create_request calls
leave exactly one row holding the second call's token and expiry. -/
theorem create_request_twice_witness :
    countForUser
      (create_request none rngZero 5 (create_request none rngZero 0 [] "u").2.1 "u").2.1
      "u" = 1 ∧
    (create_request none rngZero 5 (create_request none rngZero 0 [] "u").2.1 "u").2.1.find?
      (fun r => r.user_id == "u") = some ⟨"u", genToken rngZero, 5 + 3600⟩ :=
  create_request_twice rngZero rngZero 0 5 [] "u" (by decide)

/-- Claim C7: every link-request row returned by create_request carries a
64-character token drawn from the alphanumeric alphabet and an expiry exactly
one hour after creation time. -/
theorem create_request_token_shape (rng : Nat → Fin 62) (now : Int)
    (tbl : List LinkRequest) (uid : String) (req : LinkRequest)
    (tbl2 : List LinkRequest) (n : Nat)
    (h : create_request none rng now tbl uid = (Except.ok req, tbl2, n)) :
    req.token.length = 64 ∧
    (∀ c, c ∈ req.token.data → c ∈ alphanumericChars) ∧
    req.expires = now + 3600 := by
  rw [create_request_none_eq] at h
  have hreq : req = ⟨uid, genToken rng, now + 3600⟩ := by
    have := congrArg (fun t => t.1) h
    simpa using this.symm
  subst hreq
  exact ⟨genToken_length rng, genToken_chars rng, rfl⟩

/-- Witness for C7: a concrete create_request call from the empty table yields
a 64-character token whose first character is in the alphabet, expiring one
hour after creation. -/
theorem create_request_token_shape_witness :
    (genToken rngZero).length = 64 ∧ 'A' ∈ alphanumericChars ∧
    ((0 : Int) + 3600) = 0 + 3600 :=
  ⟨(create_request_token_shape rngZero 0 [] "u" ⟨"u", genToken rngZero, 0 + 3600⟩
      (upsertLinkRequest [] "u" (genToken rngZero) (0 + 3600)) 1
      (create_request_none_eq rngZero 0 [] "u")).1,
   (create_request_token_shape rngZero 0 [] "u" ⟨"u", genToken rngZero, 0 + 3600⟩
      (upsertLinkRequest [] "u" (genToken rngZero) (0 + 3600)) 1
      (create_request_none_eq rngZero 0 [] "u")).2.1 'A' (by decide),
   (create_request_token_shape rngZero 0 [] "u" ⟨"u", genToken rngZero, 0 + 3600⟩
      (upsertLinkRequest [] "u" (genToken rngZero) (0 + 3600)) 1
      (create_request_none_eq rngZero 0 [] "u")).2.2⟩

/-- Claim C8: create_request executes its database unit of work exactly once
and never through the retry wrapper: any injected fault, including one with
the transient prepared-statement signature, is surfaced unchanged with no
second execution. -/
theorem create_request_single_execution (fault : Option DatabaseError)
    (rng : Nat → Fin 62) (now : Int) (tbl : List LinkRequest) (uid : String) :
    (create_request fault rng now tbl uid).2.2 = 1 ∧
    (∀ e, fault = some e →
      create_request fault rng now tbl uid = (Except.error e, tbl, 1)) := by
  constructor
  · cases fault with
    | some e => rfl
    | none => rw [create_request_none_eq]
  · intro e he
    subst he
    rfl

/-- Witness for C8: a concrete call whose unit of work fails with the
transient signature surfaces that very error after a single execution. -/
theorem create_request_single_execution_witness :
    (create_request (some transientErr) rngZero 0 [] "u").2.2 = 1 ∧
    create_request (some transientErr) rngZero 0 [] "u" =
      (Except.error transientErr, [], 1) :=
  ⟨(create_request_single_execution (some transientErr) rngZero 0 [] "u").1,
   (create_request_single_execution (some transientErr) rngZero 0 [] "u").2
     transientErr rfl⟩

/-- Claim C4: an account whose expires lies more than one minute after now is
returned unchanged: the stored access_token comes back, the account table is
untouched, and the external exchange is never consulted; the expiry test is
expires <= now + 1 minute (the negation here). -/
theorem gat_fresh_token (f : Faults) (exch : Option ExchangeToken) (now : Int)
    (tbl : List Account) (uid : String) (a : Account) (hl : f.load 0 = none)
    (hfind : findAccount tbl uid = some a) (hfresh : now + 60 < a.expires) :
    get_access_token f exch now tbl uid =
      ⟨Outcome.ok a.access_token, tbl, 1, 0, 0, 0⟩ := by
  apply gat_fresh_eq f exch now tbl uid a hl hfind
  simp only [Account.expired_offset, decide_eq_false_iff_not, not_le]
  exact hfresh

/-- Witness for C4: a concrete fresh account is returned as stored, with no
exchange call and an unchanged table. -/
theorem gat_fresh_token_witness :
    get_access_token noFaults none 0 [freshAccount] "u" =
      ⟨Outcome.ok "atok", [freshAccount], 1, 0, 0, 0⟩ :=
  gat_fresh_token noFaults none 0 [freshAccount] "u" freshAccount rfl (by decide)
    (by decide)

/-- Claim C5: when the exchange fails or returns an empty result for an
expiring account, get_access_token returns RefreshTokenFailure no matter how
the best-effort delete fares, and when the delete unit of work succeeded the
account row is gone. -/
theorem gat_exchange_failure (f : Faults) (now : Int) (tbl : List Account)
    (uid : String) (a : Account) (hl : f.load 0 = none)
    (hfind : findAccount tbl uid = some a)
    (hexp : a.expires ≤ now + 60) :
    (get_access_token f none now tbl uid).outcome =
      Outcome.err DatabaseError.RefreshTokenFailure ∧
    1 ≤ (get_access_token f none now tbl uid).deleteCalls ∧
    (∀ k, (delete_account f.del tbl uid).1 = Except.ok k →
      findAccount (get_access_token f none now tbl uid).accounts uid = none) := by
  have hexpb : Account.expired_offset a 60 now = true := by
    simp only [Account.expired_offset, decide_eq_true_eq]
    exact hexp
  rw [gat_exchange_fail_eq f now tbl uid a hl hfind hexpb]
  refine ⟨rfl, ?_, ?_⟩
  · simp only
    rw [delete_account_state_calls]
    unfold delete_account
    exact retry_calls_pos _
  · intro k hk
    simp only
    rw [delete_account_state_ok f.del tbl uid k hk]
    exact findAccount_removeAccount tbl uid

/-- Witness for C5: with a concrete expiring account and a failed exchange,
the caller observes RefreshTokenFailure and the account row is gone. -/
theorem gat_exchange_failure_witness :
    (get_access_token noFaults none 0 [cexAccount] "u").outcome =
      Outcome.err DatabaseError.RefreshTokenFailure ∧
    1 ≤ (get_access_token noFaults none 0 [cexAccount] "u").deleteCalls ∧
    findAccount (get_access_token noFaults none 0 [cexAccount] "u").accounts "u" = none :=
  ⟨(gat_exchange_failure noFaults 0 [cexAccount] "u" cexAccount rfl (by decide)
      (by decide)).1,
   (gat_exchange_failure noFaults 0 [cexAccount] "u" cexAccount rfl (by decide)
      (by decide)).2.1,
   (gat_exchange_failure noFaults 0 [cexAccount] "u" cexAccount rfl (by decide)
      (by decide)).2.2 1 rfl⟩

/-- Claim C9: on the refresh path a successful exchange without expires_at is
a fatal invariant violation, not a returned error; and when every successful
exchange carries expires_at, no input can reach the fatal outcome. -/
theorem gat_fatal_spec :
    (∀ (f : Faults) (now : Int) (tbl : List Account) (uid : String) (a : Account)
        (tok : ExchangeToken), f.load 0 = none → findAccount tbl uid = some a →
      a.expires ≤ now + 60 → tok.expires_at = none →
      (get_access_token f (some tok) now tbl uid).outcome =
        Outcome.fatal "token expires_at is none, we broke time") ∧
    (∀ (f : Faults) (exch : Option ExchangeToken) (now : Int) (tbl : List Account)
        (uid : String),
      (∀ tok, exch = some tok → (tok.expires_at).isSome = true) →
      ∀ m, (get_access_token f exch now tbl uid).outcome ≠ Outcome.fatal m) := by
  constructor
  · intro f now tbl uid a tok hl hfind hexp hat
    have hexpb : Account.expired_offset a 60 now = true := by
      simp only [Account.expired_offset, decide_eq_true_eq]
      exact hexp
    rw [gat_fatal_eq f now tbl uid a tok hl hfind hexpb hat]
  · intro f exch now tbl uid hsome m
    unfold get_access_token
    cases hload : firstAccount (f.load 0) tbl uid with
    | error e => simp
    | ok a =>
        cases hexp : Account.expired_offset a 60 now with
        | false => simp [hexp]
        | true =>
            cases exch with
            | none => simp [hexp]
            | some tok =>
                cases hat : tok.expires_at with
                | none =>
                    have hcontra := hsome tok rfl
                    rw [hat] at hcontra
                    simp at hcontra
                | some v =>
                    cases hupd : updateReturning (f.update 0) tbl uid tok.access_token
                        ((tok.refresh_token).getD "") v with
                    | error e => simp [hexp, hat, hupd]
                    | ok p => cases p with | mk row tbl2 => simp [hexp, hat, hupd]

/-- Witness for C9: a concrete expiring account and an exchange result without
expires_at produce the fatal outcome. -/
theorem gat_fatal_spec_witness :
    (get_access_token noFaults (some ⟨"n", none, none⟩) 0 [cexAccount] "u").outcome =
      Outcome.fatal "token expires_at is none, we broke time" :=
  gat_fatal_spec.1 noFaults 0 [cexAccount] "u" cexAccount ⟨"n", none, none⟩ rfl
    (by decide) (by decide) rfl

/-- Claim C10: whenever get_access_token performed its credential update and
returned successfully, the returned string is the access_token of the row the
update wrote and RETURNING read back, i.e. the row now found in the table. -/
theorem gat_returned_is_persisted (f : Faults) (exch : Option ExchangeToken)
    (now : Int) (tbl : List Account) (uid : String) :
    ∀ s, (get_access_token f exch now tbl uid).outcome = Outcome.ok s →
      (get_access_token f exch now tbl uid).updateCalls = 1 →
      ∃ row, findAccount (get_access_token f exch now tbl uid).accounts uid = some row ∧
        row.access_token = s := by
  intro s hok hupd1
  unfold get_access_token at hok hupd1 ⊢
  cases hload : firstAccount (f.load 0) tbl uid with
  | error e => simp [hload] at hupd1
  | ok a =>
      cases hexp : Account.expired_offset a 60 now with
      | false => simp [hload, hexp] at hupd1
      | true =>
          cases exch with
          | none => simp [hload, hexp] at hok
          | some tok =>
              cases hat : tok.expires_at with
              | none => simp [hload, hexp, hat] at hok
              | some v =>
                  cases hur : updateReturning (f.update 0) tbl uid tok.access_token
                      ((tok.refresh_token).getD "") v with
                  | error e => simp [hload, hexp, hat, hur] at hok
                  | ok p =>
                      cases p with
                      | mk row tbl2 =>
                          simp [hload, hexp, hat, hur] at hok ⊢
                          refine ⟨row, ?_, hok⟩
                          simpa using updateReturning_ok_find (f.update 0) tbl uid
                            tok.access_token ((tok.refresh_token).getD "") v row tbl2 hur

/-- Witness for C10: on the concrete successful refresh, the returned string
equals the access_token of the persisted row. -/
theorem gat_returned_is_persisted_witness :
    ∃ row,
      findAccount
        (get_access_token noFaults (some cexExchange) 0 [cexAccount] "u").accounts "u" =
        some row ∧ row.access_token = "newtok" :=
  gat_returned_is_persisted noFaults (some cexExchange) 0 [cexAccount] "u" "newtok"
    (by decide) (by decide)

/-- Counterexample for C1: with a stored refresh_token "old" and a successful
exchange that did not rotate the refresh token, the persisted refresh_token is
the empty string, not the prior value "old" the claim promises. -/
theorem gat_refresh_token_not_kept_cex :
    (findAccount
      (get_access_token noFaults (some cexExchange) 0 [cexAccount] "u").accounts "u").map
        (fun a => a.refresh_token) = some "" ∧
    (findAccount
      (get_access_token noFaults (some cexExchange) 0 [cexAccount] "u").accounts "u").map
        (fun a => a.refresh_token) ≠ some "old" := by
  decide

/-- Claim C1 (amended): on the refresh path with a successful exchange, the
persisted access_token and expires match the exchange result exactly; the
persisted refresh_token matches the exchange result when the provider rotated
it and is the empty string otherwise; the returned value is the new
access_token. -/
theorem gat_refresh_persists (f : Faults) (now : Int) (tbl : List Account)
    (uid : String) (a : Account) (tok : ExchangeToken) (v : Int)
    (hl : f.load 0 = none) (hu : f.update 0 = none)
    (hfind : findAccount tbl uid = some a)
    (hexp : a.expires ≤ now + 60) (hat : tok.expires_at = some v) :
    (get_access_token f (some tok) now tbl uid).outcome =
      Outcome.ok tok.access_token ∧
    ∃ row,
      findAccount (get_access_token f (some tok) now tbl uid).accounts uid = some row ∧
      row.access_token = tok.access_token ∧
      row.expires = v ∧
      row.refresh_token = (tok.refresh_token).getD "" := by
  have hexpb : Account.expired_offset a 60 now = true := by
    simp only [Account.expired_offset, decide_eq_true_eq]
    exact hexp
  rw [gat_refresh_eq f now tbl uid a tok v hl hfind hexpb hat hu]
  refine ⟨rfl, ?_⟩
  use { a with access_token := tok.access_token, refresh_token := (tok.refresh_token).getD "", expires := v }
  refine ⟨?_, rfl, rfl, rfl⟩
  simp only
  rw [findAccount_applyUpdate, hfind]
  rfl

/-- Witness for C1 (amended): on the concrete non-rotating exchange, the
persisted row carries the new access_token and expires and an empty
refresh_token, and the new access_token is returned. -/
theorem gat_refresh_persists_witness :
    (get_access_token noFaults (some cexExchange) 0 [cexAccount] "u").outcome =
      Outcome.ok "newtok" ∧
    ∃ row,
      findAccount
        (get_access_token noFaults (some cexExchange) 0 [cexAccount] "u").accounts "u" =
        some row ∧
      row.access_token = "newtok" ∧ row.expires = 1000 ∧
      row.refresh_token = (Option.getD (none : Option String) "") :=
  gat_refresh_persists noFaults 0 [cexAccount] "u" cexAccount cexExchange 1000
    rfl rfl (by decide) (by decide) rfl

/-- Counterexample for C2: a first load failure carrying the very transient
prepared-statement signature is not retried: the load unit of work runs only
once (never twice as the claim requires) and the error surfaces. -/
theorem gat_load_not_retried_cex :
    (get_access_token flakyLoadFaults (some cexExchange) 0 [cexAccount] "u").loadCalls ≠ 2 ∧
    (get_access_token flakyLoadFaults (some cexExchange) 0 [cexAccount] "u").outcome =
      Outcome.err transientErr := by
  decide

/-- Claim C2 (amended): get_access_token performs its two database round trips
as single executions outside the retry wrapper: the load always runs exactly
once and any load fault, transient signature included, is returned unchanged;
the update runs at most once and any update fault is returned unchanged after
its single execution. -/
theorem gat_single_db_executions (f : Faults) (exch : Option ExchangeToken)
    (now : Int) (tbl : List Account) (uid : String) :
    (get_access_token f exch now tbl uid).loadCalls = 1 ∧
    (get_access_token f exch now tbl uid).updateCalls ≤ 1 ∧
    (∀ e, f.load 0 = some e →
      get_access_token f exch now tbl uid = ⟨Outcome.err e, tbl, 1, 0, 0, 0⟩) ∧
    (∀ e (a : Account) (tok : ExchangeToken) (v : Int),
      f.load 0 = none → findAccount tbl uid = some a → a.expires ≤ now + 60 →
      exch = some tok → tok.expires_at = some v → f.update 0 = some e →
      get_access_token f exch now tbl uid = ⟨Outcome.err e, tbl, 1, 1, 0, 1⟩) := by
  refine ⟨?_, ?_, ?_, ?_⟩
  · unfold get_access_token
    cases hload : firstAccount (f.load 0) tbl uid with
    | error e => simp
    | ok a =>
        cases hexp : Account.expired_offset a 60 now with
        | false => simp [hexp]
        | true =>
            cases exch with
            | none => simp [hexp]
            | some tok =>
                cases hat : tok.expires_at with
                | none => simp [hexp, hat]
                | some v =>
                    cases hur : updateReturning (f.update 0) tbl uid tok.access_token
                        ((tok.refresh_token).getD "") v with
                    | error e => simp [hexp, hat, hur]
                    | ok p => cases p with | mk row tbl2 => simp [hexp, hat, hur]
  · unfold get_access_token
    cases hload : firstAccount (f.load 0) tbl uid with
    | error e => simp
    | ok a =>
        cases hexp : Account.expired_offset a 60 now with
        | false => simp [hexp]
        | true =>
            cases exch with
            | none => simp [hexp]
            | some tok =>
                cases hat : tok.expires_at with
                | none => simp [hexp, hat]
                | some v =>
                    cases hur : updateReturning (f.update 0) tbl uid tok.access_token
                        ((tok.refresh_token).getD "") v with
                    | error e => simp [hexp, hat, hur]
                    | ok p => cases p with | mk row tbl2 => simp [hexp, hat, hur]
  · intro e he
    exact gat_load_fault_eq f exch now tbl uid e he
  · intro e a tok v hl hfind hexp hexch hat hu
    subst hexch
    have hexpb : Account.expired_offset a 60 now = true := by
      simp only [Account.expired_offset, decide_eq_true_eq]
      exact hexp
    exact gat_update_fault_eq f now tbl uid a tok v e hl hfind hexpb hat hu

/-- Witness for C2 (amended): with the concrete transient load fault the call
reports one load execution, no update execution, and the surfaced error. -/
theorem gat_single_db_executions_witness :
    (get_access_token flakyLoadFaults (some cexExchange) 0 [cexAccount] "u").loadCalls = 1 ∧
    get_access_token flakyLoadFaults (some cexExchange) 0 [cexAccount] "u" =
      ⟨Outcome.err transientErr, [cexAccount], 1, 0, 0, 0⟩ :=
  ⟨(gat_single_db_executions flakyLoadFaults (some cexExchange) 0 [cexAccount] "u").1,
   (gat_single_db_executions flakyLoadFaults (some cexExchange) 0 [cexAccount] "u").2.2.1
     transientErr rfl⟩

end Spoticord
